import Mathlib

/-!
Verification of the sandbox environment lifecycle subsystem of the
executorserver command (cmd/executorserver/main.go) against its
natural-language specification.

The Go source is shallowly embedded: machine integers (uint32) become
Nat with explicit reduction modulo 2^32, the package-global atomic
counter becomes explicit state passing, and fallible startup steps
become Except values.
-/

/-- 2^32, the modulus of a Go uint32. `atomic.AddUint32` wraps at this bound. -/
def UINT32_MOD : Nat := 4294967296

/-- Embedding of Go `syscall.Credential` (the fields consumed by the source:
Uid and Gid). -/
structure Credential where
  Uid : Nat
  Gid : Nat
deriving DecidableEq, Repr

/-- Embedding of the source type
`type credGen struct { cur uint32 }`. -/
structure credGen where
  cur : Nat
deriving DecidableEq, Repr

/-- Embedding of `func newCredGen() *credGen { return &credGen{cur: 10000} }`. -/
def newCredGen : credGen := ⟨10000⟩

/-- Embedding of
`func (c *credGen) Get() syscall.Credential { n := atomic.AddUint32(&c.cur, 1); return syscall.Credential{Uid: n, Gid: n} }`.
`atomic.AddUint32` adds 1 to the counter (wrapping modulo 2^32) and returns
the new value; the mutation of `c.cur` is made explicit by returning the
updated state. -/
def credGen.Get (c : credGen) : Credential × credGen :=
  let n := (c.cur + 1) % UINT32_MOD
  (⟨n, n⟩, ⟨n⟩)

/-- The allocator state after `n` calls to `Get`, starting from `newCredGen`. -/
def credGen.stateAfter : Nat → credGen
  | 0 => newCredGen
  | n + 1 => (credGen.Get (credGen.stateAfter n)).2

/-- The credential returned by the `n`-th call to `Get` (1-based) on a freshly
constructed allocator. -/
def credGen.nthCred (n : Nat) : Credential :=
  (credGen.Get (credGen.stateAfter (n - 1))).1

theorem credGen.stateAfter_cur (n : Nat) :
    (credGen.stateAfter n).cur = (10000 + n) % UINT32_MOD := by
  induction n with
  | zero => decide
  | succ k ih =>
      show ((credGen.stateAfter k).cur + 1) % UINT32_MOD = _
      rw [ih, Nat.mod_add_mod, Nat.add_assoc]

theorem credGen.nthCred_succ (n : Nat) :
    credGen.nthCred (n + 1) =
      ⟨(10000 + (n + 1)) % UINT32_MOD, (10000 + (n + 1)) % UINT32_MOD⟩ := by
  show (credGen.Get (credGen.stateAfter n)).1 = _
  simp only [credGen.Get, credGen.stateAfter_cur, Nat.mod_add_mod]
  rfl

theorem credGen.nthCred_eq (n : Nat) (h : 1 ≤ n) :
    credGen.nthCred n =
      ⟨(10000 + n) % UINT32_MOD, (10000 + n) % UINT32_MOD⟩ := by
  obtain ⟨m, rfl⟩ := Nat.exists_eq_add_of_le h
  rw [Nat.add_comm 1 m]
  exact credGen.nthCred_succ m

/-- Helper: two calls fewer than 2^32 apart return different Uid values. -/
theorem credGen.nthCred_uid_ne (i j : Nat) (hi : 1 ≤ i) (hij : i < j)
    (hwin : j - i < UINT32_MOD) :
    (credGen.nthCred i).Uid ≠ (credGen.nthCred j).Uid := by
  rw [credGen.nthCred_eq i hi, credGen.nthCred_eq j (by omega)]
  intro h
  simp only [] at h
  have hle : 10000 + i ≤ 10000 + j := by omega
  have hdvd : UINT32_MOD ∣ (10000 + j) - (10000 + i) :=
    (Nat.modEq_iff_dvd' hle).1 h
  have hsub : (10000 + j) - (10000 + i) = j - i := by omega
  rw [hsub] at hdvd
  have := Nat.eq_zero_of_dvd_of_lt hdvd hwin
  omega

/-- Claim C3: for every sequence of M sequential calls to the Credential
Allocator's Get operation, the M returned (uid, gid) pairs are pairwise
distinct and strictly increasing, until wraparound of the counter's numeric
range occurs (expressed by the hypothesis that call M still precedes the
wraparound point of the uint32 counter). -/
theorem credAllocator_strictly_increasing (M i j : Nat)
    (hM : 10000 + M < UINT32_MOD) (hi : 1 ≤ i) (hij : i < j) (hj : j ≤ M) :
    (credGen.nthCred i).Uid < (credGen.nthCred j).Uid ∧
    (credGen.nthCred i).Gid < (credGen.nthCred j).Gid ∧
    credGen.nthCred i ≠ credGen.nthCred j := by
  rw [credGen.nthCred_eq i hi, credGen.nthCred_eq j (by omega)]
  have hiM : 10000 + i < UINT32_MOD := by omega
  have hjM : 10000 + j < UINT32_MOD := by omega
  rw [Nat.mod_eq_of_lt hiM, Nat.mod_eq_of_lt hjM]
  refine ⟨by simp only []; omega, by simp only []; omega, ?_⟩
  intro h
  have huid := congrArg Credential.Uid h
  simp only [] at huid
  omega

theorem credAllocator_strictly_increasing_witness :
    (10000 + 3 < UINT32_MOD ∧ 1 ≤ 1 ∧ 1 < 2 ∧ 2 ≤ 3) ∧
    ((credGen.nthCred 1).Uid < (credGen.nthCred 2).Uid ∧
     (credGen.nthCred 1).Gid < (credGen.nthCred 2).Gid ∧
     credGen.nthCred 1 ≠ credGen.nthCred 2) :=
  ⟨by decide,
   credAllocator_strictly_increasing 3 1 2 (by decide) (by decide) (by decide)
     (by decide)⟩

/-- Claim C5 counterexample: the 1st call and the (2^32 + 1)-th call are
distinct calls yet return the same credential, because the uint32 counter
wraps; so calls do not "never return the same value" without a window bound. -/
theorem credGen_wraparound_repeats :
    credGen.nthCred 1 = credGen.nthCred (UINT32_MOD + 1) ∧
    (1 : Nat) ≠ UINT32_MOD + 1 := by
  constructor
  · rw [credGen.nthCred_eq 1 (by decide),
        credGen.nthCred_eq (UINT32_MOD + 1) (by decide)]
    decide
  · decide

/-- Claim C5 (amended): the Credential Allocator is an atomically incremented
counter with starting point 10000 that increments by exactly 1 (modulo 2^32)
per call to Get, and two distinct calls fewer than 2^32 apart never return the
same value; the only side effect of a call is the counter mutation (the
returned state differs from the input state only in the incremented
counter). -/
theorem credGen_atomic_counter (i j : Nat) (hi : 1 ≤ i) (hij : i < j)
    (hwin : j - i < UINT32_MOD) :
    newCredGen.cur = 10000 ∧
    (∀ c : credGen, ((credGen.Get c).2).cur = (c.cur + 1) % UINT32_MOD) ∧
    credGen.nthCred i ≠ credGen.nthCred j := by
  refine ⟨rfl, fun c => rfl, ?_⟩
  intro h
  exact credGen.nthCred_uid_ne i j hi hij hwin (congrArg Credential.Uid h)

theorem credGen_atomic_counter_witness :
    ((1 : Nat) ≤ 1 ∧ 1 < 2 ∧ 2 - 1 < UINT32_MOD) ∧
    credGen.nthCred 1 ≠ credGen.nthCred 2 :=
  ⟨by decide,
   (credGen_atomic_counter 1 2 (by decide) (by decide) (by decide)).2.2⟩

/-- Claim C6 counterexample: the credentials of the 2nd and the
(2^32 + 2)-th execution agree in both uid and gid even though the executions
are distinct, because the uint32 counter wraps. -/
theorem credGen_wraparound_same_uid_gid :
    (credGen.nthCred 2).Uid = (credGen.nthCred (UINT32_MOD + 2)).Uid ∧
    (credGen.nthCred 2).Gid = (credGen.nthCred (UINT32_MOD + 2)).Gid ∧
    (2 : Nat) ≠ UINT32_MOD + 2 := by
  rw [credGen.nthCred_eq 2 (by decide),
      credGen.nthCred_eq (UINT32_MOD + 2) (by decide)]
  decide

/-- Claim C6 (amended): every Credential returned by the allocator has its uid
equal to its gid; consequently, the Credentials given to two distinct
executions fewer than 2^32 allocations apart differ in both uid and gid. -/
theorem credGen_uid_eq_gid (i j : Nat) (hi : 1 ≤ i) (hij : i < j)
    (hwin : j - i < UINT32_MOD) :
    (∀ c : credGen, ((credGen.Get c).1).Uid = ((credGen.Get c).1).Gid) ∧
    (credGen.nthCred i).Uid ≠ (credGen.nthCred j).Uid ∧
    (credGen.nthCred i).Gid ≠ (credGen.nthCred j).Gid := by
  refine ⟨fun c => rfl, credGen.nthCred_uid_ne i j hi hij hwin, ?_⟩
  rw [credGen.nthCred_eq i hi, credGen.nthCred_eq j (by omega)]
  intro h
  exact credGen.nthCred_uid_ne i j hi hij hwin
    (by rw [credGen.nthCred_eq i hi, credGen.nthCred_eq j (by omega)]; exact h)

theorem credGen_uid_eq_gid_witness :
    ((1 : Nat) ≤ 1 ∧ 1 < 2 ∧ 2 - 1 < UINT32_MOD) ∧
    ((credGen.nthCred 1).Uid ≠ (credGen.nthCred 2).Uid ∧
     (credGen.nthCred 1).Gid ≠ (credGen.nthCred 2).Gid) :=
  ⟨by decide,
   (credGen_uid_eq_gid 1 2 (by decide) (by decide) (by decide)).2⟩

/-- Claim C9: the credential counter is a 32-bit unsigned integer and Get
computes the successor modulo 2^32: the value of the n-th call is
(10000 + n) mod 2^32, so the values wrap past the maximum, re-enter the range
of normal host user ids (value 0 is returned by call 2^32 - 10000), and repeat
previously issued credentials (call 2^32 + 1 repeats call 1), with every call
returning a credential and none refusing to allocate. -/
theorem credGen_uint32_wraparound :
    (∀ c : credGen, ((credGen.Get c).2).cur = (c.cur + 1) % UINT32_MOD) ∧
    (∀ n : Nat, credGen.nthCred (n + 1) =
      ⟨(10000 + (n + 1)) % UINT32_MOD, (10000 + (n + 1)) % UINT32_MOD⟩) ∧
    (credGen.nthCred (UINT32_MOD - 10000)).Uid = 0 ∧
    credGen.nthCred (UINT32_MOD + 1) = credGen.nthCred 1 := by
  refine ⟨fun c => rfl, credGen.nthCred_succ, ?_, ?_⟩
  · rw [credGen.nthCred_eq (UINT32_MOD - 10000) (by decide)]
    decide
  · rw [credGen.nthCred_eq (UINT32_MOD + 1) (by decide),
        credGen.nthCred_eq 1 (by decide)]
    decide

/-- Claim C10 counterexample: the 2^32-th call to Get returns the seed value
10000, so the seed is returned by a call after the counter wraps. -/
theorem credGen_seed_returned_at_wraparound :
    (credGen.nthCred UINT32_MOD).Uid = 10000 ∧
    (credGen.nthCred UINT32_MOD).Gid = 10000 := by
  rw [credGen.nthCred_eq UINT32_MOD (by decide)]
  decide

/-- Claim C10 (amended): the first call to Get on a freshly constructed
Credential Allocator returns uid = gid = 10001, and the seed value 10000 is
not returned by any of the first 2^32 - 1 calls, because the counter is
incremented before its value is read; the seed is only returned at call 2^32
when the counter wraps. -/
theorem credGen_first_call_and_seed (n : Nat) (h1 : 1 ≤ n)
    (h2 : n < UINT32_MOD) :
    credGen.nthCred 1 = ⟨10001, 10001⟩ ∧ (credGen.nthCred n).Uid ≠ 10000 := by
  refine ⟨by decide, ?_⟩
  rw [credGen.nthCred_eq n h1]
  intro h
  simp only [] at h
  have h10 : (10000 : Nat) = 10000 % UINT32_MOD := by decide
  rw [h10] at h
  have hdvd : UINT32_MOD ∣ (10000 + n) - 10000 :=
    (Nat.modEq_iff_dvd' (by omega)).1 h.symm
  have hsub : (10000 + n) - 10000 = n := by omega
  rw [hsub] at hdvd
  have := Nat.eq_zero_of_dvd_of_lt hdvd h2
  omega

theorem credGen_first_call_and_seed_witness :
    ((1 : Nat) ≤ 1 ∧ 1 < UINT32_MOD) ∧
    (credGen.nthCred 1 = ⟨10001, 10001⟩ ∧ (credGen.nthCred 1).Uid ≠ 10000) :=
  ⟨by decide, credGen_first_call_and_seed 1 (by decide) (by decide)⟩

/-- A cgroup resource controller declared by the source
(`WithCPUAcct().WithMemory().WithPids()`). -/
inductive Controller
  | cpuacct
  | memory
  | pids
deriving DecidableEq, Repr

/-- The startup error taxonomy: a ConfigurationError is fatal, raised by main
via panic. The three panic sites of main.go are the temp-dir creation for the
container root, the mount-template Build, and the cgroup-builder
construction. -/
inductive ConfigurationError
  | rootDirNotCreatable
  | mountSourceMissing
  | cgroupControllerUnavailable
deriving DecidableEq, Repr

/-- An immutable cgroup template listing the enabled controllers. -/
structure CgroupTemplate where
  controllers : List Controller
deriving DecidableEq, Repr

/-- The controllers declared at startup by main.go line 102:
`cgroup.NewBuilder("executorserver").WithCPUAcct().WithMemory().WithPids()`. -/
def mainDeclaredControllers : List Controller :=
  [Controller.cpuacct, Controller.memory, Controller.pids]

/-- Modelled from the spec: `FilterByEnv` of the cgroup builder is not under
src (only its caller at main.go line 102 is). Per the spec it filters the
declared controllers against what the running host's cgroup subsystem
actually exposes, and build fails fatally when the filtering leaves the
controller set inadequate for safe operation, i.e. when a declared controller
is unavailable it fails with a ConfigurationError rather than silently
omitting the controller. -/
def cgroupBuilderBuild (declared hostAvailable : List Controller) :
    Except ConfigurationError CgroupTemplate :=
  if declared.all (fun c => decide (c ∈ hostAvailable)) then
    Except.ok ⟨declared⟩
  else
    Except.error ConfigurationError.cgroupControllerUnavailable

/-- Claim C4: if a cgroup controller declared at startup (CPU accounting,
memory, or process count) is unavailable on the host, cgroup template
construction deterministically fails with a ConfigurationError; and whenever
construction succeeds, the template holds exactly the declared controllers,
never silently omitting an unavailable one. -/
theorem cgroup_build_fails_when_controller_unavailable
    (hostAvailable : List Controller) (c : Controller)
    (hc : c ∈ mainDeclaredControllers) (hmiss : c ∉ hostAvailable) :
    cgroupBuilderBuild mainDeclaredControllers hostAvailable =
      Except.error ConfigurationError.cgroupControllerUnavailable ∧
    (∀ (host : List Controller) (t : CgroupTemplate),
      cgroupBuilderBuild mainDeclaredControllers host = Except.ok t →
      t.controllers = mainDeclaredControllers) := by
  constructor
  · unfold cgroupBuilderBuild
    rw [if_neg]
    simp only [List.all_eq_true, decide_eq_true_eq]
    intro hall
    exact hmiss (hall c hc)
  · intro host t h
    unfold cgroupBuilderBuild at h
    by_cases hcond :
        mainDeclaredControllers.all (fun c => decide (c ∈ host)) = true
    · rw [if_pos hcond] at h
      cases h
      rfl
    · rw [if_neg hcond] at h
      cases h

theorem cgroup_build_fails_when_controller_unavailable_witness :
    (Controller.memory ∈ mainDeclaredControllers ∧
     Controller.memory ∉ [Controller.cpuacct, Controller.pids]) ∧
    cgroupBuilderBuild mainDeclaredControllers
      [Controller.cpuacct, Controller.pids] =
      Except.error ConfigurationError.cgroupControllerUnavailable :=
  ⟨by decide,
   (cgroup_build_fails_when_controller_unavailable
     [Controller.cpuacct, Controller.pids] Controller.memory
     (by decide) (by decide)).1⟩

/-- The state reached when main finishes its startup sequence and the worker
pool and HTTP server have been started. -/
structure ServerState where
  serverStarted : Bool
deriving DecidableEq, Repr

/-- The externally supplied outcomes consumed by main's startup sequence:
the result of creating the container-root temp dir (main.go line 55), the
result of the mount-template Build (line 84; only its success or failure is
consumed by main), and the set of cgroup controllers the host exposes
(consumed by the cgroup-builder construction at line 102). -/
structure StartupEnv where
  tempDirResult : Except ConfigurationError String
  mountBuildResult : Except ConfigurationError Unit
  hostControllers : List Controller

/-- Embedding of the startup sequence of main (main.go lines 55-112): each
fallible step panics on error — modelled as an Except short-circuit, since a
Go panic in main unwinds and terminates the process — and only after all
three steps succeed does main start the workers and the HTTP server. -/
def mainStartup (env : StartupEnv) : Except ConfigurationError ServerState :=
  match env.tempDirResult with
  | Except.error e => Except.error e
  | Except.ok _root =>
    match env.mountBuildResult with
    | Except.error e => Except.error e
    | Except.ok _m =>
      match cgroupBuilderBuild mainDeclaredControllers env.hostControllers with
      | Except.error e => Except.error e
      | Except.ok _cgb => Except.ok ⟨true⟩

/-- Claim C7: every ConfigurationError (root directory not creatable, invalid
or missing mount source, inadequate cgroup controllers) raised during the
startup sequence terminates it immediately — the failing step's error is the
result of main and the server is never started; and the server starts only
when no startup step fails. -/
theorem startup_configuration_error_is_fatal (env : StartupEnv) :
    (∀ e, env.tempDirResult = Except.error e →
      mainStartup env = Except.error e) ∧
    (∀ r e, env.tempDirResult = Except.ok r →
      env.mountBuildResult = Except.error e →
      mainStartup env = Except.error e) ∧
    (∀ r u e, env.tempDirResult = Except.ok r →
      env.mountBuildResult = Except.ok u →
      cgroupBuilderBuild mainDeclaredControllers env.hostControllers =
        Except.error e →
      mainStartup env = Except.error e) ∧
    (∀ s, mainStartup env = Except.ok s →
      s.serverStarted = true ∧
      (∃ r, env.tempDirResult = Except.ok r) ∧
      (∃ u, env.mountBuildResult = Except.ok u) ∧
      (∃ t, cgroupBuilderBuild mainDeclaredControllers env.hostControllers =
        Except.ok t)) := by
  refine ⟨?_, ?_, ?_, ?_⟩
  · intro e he
    unfold mainStartup
    rw [he]
  · intro r e hr he
    unfold mainStartup
    rw [hr, he]
  · intro r u e hr hu he
    unfold mainStartup
    rw [hr, hu, he]
  · intro s hs
    unfold mainStartup at hs
    cases htd : env.tempDirResult with
    | error e => rw [htd] at hs; cases hs
    | ok r =>
      rw [htd] at hs
      cases hm : env.mountBuildResult with
      | error e => rw [hm] at hs; cases hs
      | ok u =>
        rw [hm] at hs
        cases hc : cgroupBuilderBuild mainDeclaredControllers
            env.hostControllers with
        | error e => rw [hc] at hs; cases hs
        | ok t =>
          rw [hc] at hs
          cases hs
          exact ⟨rfl, ⟨r, rfl⟩, ⟨u, rfl⟩, ⟨t, rfl⟩⟩

theorem startup_configuration_error_is_fatal_witness :
    ((⟨Except.error ConfigurationError.rootDirNotCreatable,
       Except.ok (), mainDeclaredControllers⟩ : StartupEnv).tempDirResult =
      Except.error ConfigurationError.rootDirNotCreatable) ∧
    mainStartup
      ⟨Except.error ConfigurationError.rootDirNotCreatable,
       Except.ok (), mainDeclaredControllers⟩ =
      Except.error ConfigurationError.rootDirNotCreatable :=
  ⟨rfl,
   (startup_configuration_error_is_fatal
     ⟨Except.error ConfigurationError.rootDirNotCreatable,
      Except.ok (), mainDeclaredControllers⟩).1
     ConfigurationError.rootDirNotCreatable rfl⟩

/-- Linux clone flag CLONE_NEWNS (new mount namespace), bit 17. -/
def CLONE_NEWNS : Nat := 0x00020000

/-- Linux clone flag CLONE_NEWUTS (new uts namespace), bit 26. -/
def CLONE_NEWUTS : Nat := 0x04000000

/-- Linux clone flag CLONE_NEWIPC (new ipc namespace), bit 27. -/
def CLONE_NEWIPC : Nat := 0x08000000

/-- Linux clone flag CLONE_NEWPID (new pid namespace), bit 29. -/
def CLONE_NEWPID : Nat := 0x20000000

/-- Linux clone flag CLONE_NEWNET (new network namespace), bit 30. -/
def CLONE_NEWNET : Nat := 0x40000000

/-- Modelled from the spec: `forkexec.UnshareFlags` (a go-sandbox constant) is
not under src, only its use at main.go line 90 is; per the spec the container
template's namespace-unshare flags are mount, pid, uts, ipc, and network. -/
def UnshareFlags : Nat :=
  CLONE_NEWNS ||| CLONE_NEWUTS ||| CLONE_NEWIPC ||| CLONE_NEWPID |||
    CLONE_NEWNET

/-- Embedding of main.go lines 90-93:
`unshareFlags := uintptr(forkexec.UnshareFlags)` followed by
`if *netShare { unshareFlags ^= syscall.CLONE_NEWNET }`. -/
def unshareFlagsFor (netShare : Bool) : Nat :=
  if netShare then UnshareFlags ^^^ CLONE_NEWNET else UnshareFlags

/-- The default value of the `-net` network-sharing flag (main.go line 28). -/
def netShareDefault : Bool := false

/-- Claim C8: by default (network-sharing toggle off) the network namespace is
unshared from the host (CLONE_NEWNET is among the unshare flags), and when the
toggle is enabled the network-namespace flag is removed from the template's
namespace-unshare flags while the mount, pid, uts, and ipc unshare flags are
kept. -/
theorem unshare_flags_net_toggle :
    netShareDefault = false ∧
    unshareFlagsFor netShareDefault &&& CLONE_NEWNET = CLONE_NEWNET ∧
    unshareFlagsFor true &&& CLONE_NEWNET = 0 ∧
    unshareFlagsFor true &&& CLONE_NEWNS = CLONE_NEWNS ∧
    unshareFlagsFor true &&& CLONE_NEWPID = CLONE_NEWPID ∧
    unshareFlagsFor true &&& CLONE_NEWUTS = CLONE_NEWUTS ∧
    unshareFlagsFor true &&& CLONE_NEWIPC = CLONE_NEWIPC ∧
    unshareFlagsFor false &&& CLONE_NEWNS = CLONE_NEWNS ∧
    unshareFlagsFor false &&& CLONE_NEWPID = CLONE_NEWPID ∧
    unshareFlagsFor false &&& CLONE_NEWUTS = CLONE_NEWUTS ∧
    unshareFlagsFor false &&& CLONE_NEWIPC = CLONE_NEWIPC := by
  decide

/-- The number of Environments (each paired with a CgroupInstance and a
concurrency slot) currently checked out by in-flight executions. -/
structure DispatchState where
  checkedOut : Nat
deriving DecidableEq, Repr

/-- Modelled from the spec: the Worker Dispatcher (startWorkers and the pool
packages are not under src, only their wiring at main.go lines 108-112 is).
Per the spec an execution begins only after acquiring a free concurrency slot
(blocking while all P slots are taken), at which point one Environment is
checked out; finishing an execution releases it. -/
inductive DispatchStep (P : Nat) : DispatchState → DispatchState → Prop
  | acquire (s : DispatchState) (h : s.checkedOut < P) :
      DispatchStep P s ⟨s.checkedOut + 1⟩
  | release (s : DispatchState) (h : 0 < s.checkedOut) :
      DispatchStep P s ⟨s.checkedOut - 1⟩

/-- States reachable by the dispatcher from the idle startup state (no
execution in flight). -/
def DispatchReachable (P : Nat) (s : DispatchState) : Prop :=
  Relation.ReflTransGen (DispatchStep P) ⟨0⟩ s

/-- Claim C1: for every sequence of concurrent execution requests with
configured parallelism P, the number of Environments simultaneously checked
out of the Environment Pool never exceeds P — in every dispatcher state
reachable from startup, checkedOut is at most P. -/
theorem dispatcher_concurrency_bound (P : Nat) (s : DispatchState)
    (h : DispatchReachable P s) : s.checkedOut ≤ P := by
  induction h with
  | refl => exact Nat.zero_le P
  | tail hreach hstep ih =>
      cases hstep with
      | acquire ht => exact ht
      | release ht => exact le_trans (Nat.sub_le _ _) ih

theorem dispatcher_concurrency_bound_witness :
    DispatchReachable 2 ⟨1⟩ ∧ (⟨1⟩ : DispatchState).checkedOut ≤ 2 :=
  have hreach : DispatchReachable 2 ⟨1⟩ :=
    Relation.ReflTransGen.single (DispatchStep.acquire ⟨0⟩ (by decide))
  ⟨hreach, dispatcher_concurrency_bound 2 ⟨1⟩ hreach⟩

/-- The outcome of one delegated execution as observed by the dispatcher. -/
inductive Outcome
  | success
  | timeout
  | crash
  | error
deriving DecidableEq, Repr

/-- The available (not checked out) counts of the Environment Pool, the
Cgroup Pool, and the dispatcher's free concurrency slots. -/
structure PoolAvail where
  envAvail : Nat
  cgAvail : Nat
  freeSlots : Nat
deriving DecidableEq, Repr

/-- Modelled from the spec: the per-request path of the Worker Dispatcher
(startWorkers and the worker loop are not under src, only their wiring at
main.go line 112 is). It acquires a concurrency slot, checks out one
Environment and one CgroupInstance, delegates the run to the execution
collaborator (whose outcome is supplied as an argument), then unconditionally
releases the Environment, the CgroupInstance and the slot, and only then
returns the outcome to the caller. -/
def dispatchOne (p : PoolAvail) (run : Outcome) : Outcome × PoolAvail :=
  let acquired : PoolAvail :=
    ⟨p.envAvail - 1, p.cgAvail - 1, p.freeSlots - 1⟩
  let result := run
  let released : PoolAvail :=
    ⟨acquired.envAvail + 1, acquired.cgAvail + 1, acquired.freeSlots + 1⟩
  (result, released)

/-- Claim C2: for every execution dispatched by the Worker Dispatcher,
regardless of the outcome (success, timeout, crash, or error), the checked-out
Environment, the checked-out CgroupInstance, and the concurrency slot are all
released before the result is returned to the caller: the pool availability
returned alongside the result equals the availability before dispatch, for
every possible outcome. -/
theorem dispatch_releases_resources (p : PoolAvail) (run : Outcome)
    (henv : 0 < p.envAvail) (hcg : 0 < p.cgAvail)
    (hslot : 0 < p.freeSlots) :
    (dispatchOne p run).2 = p ∧ (dispatchOne p run).1 = run := by
  refine ⟨?_, rfl⟩
  obtain ⟨e, c, s⟩ := p
  have he : 0 < e := henv
  have hc : 0 < c := hcg
  have hs : 0 < s := hslot
  show PoolAvail.mk (e - 1 + 1) (c - 1 + 1) (s - 1 + 1) = PoolAvail.mk e c s
  simp only [PoolAvail.mk.injEq]
  omega

theorem dispatch_releases_resources_witness :
    ((0 : Nat) < 1 ∧ (0 : Nat) < 1 ∧ (0 : Nat) < 1) ∧
    ((dispatchOne ⟨1, 1, 1⟩ Outcome.timeout).2 = ⟨1, 1, 1⟩ ∧
     (dispatchOne ⟨1, 1, 1⟩ Outcome.timeout).1 = Outcome.timeout) :=
  ⟨by decide,
   dispatch_releases_resources ⟨1, 1, 1⟩ Outcome.timeout (by decide)
     (by decide) (by decide)⟩
